import Mathlib

/-!
Shallow embedding of the `ctxmux` package (`ctxmux.go`): a small HTTP mux
that wraps handlers with shared context initialization, error handling and
panic recovery.

Modelling conventions:
* `Context` mirrors the chained `context.Context` values actually built by
  this code: `context.Background()` plus `context.WithValue` derivations.
  The nil `context.Context` interface value (the `var ctx context.Context`
  declaration in `Mux.wrap` before any assignment) is modelled as `none` in
  an `Option Context`.
* Go functions that write to the `http.ResponseWriter` and may panic are
  modelled semantically: they return the list of chunks they wrote (up to
  the panic point, if any) together with an outcome that is either a normal
  return value or a panic payload. A returned Go `error` is `Option Err`
  (`none` is the nil error).
* Dispatch (`Mux.wrap`) returns a `DispatchResult`: the ordered trace of
  collaborator invocations (registered handler / error handler / panic
  handler, each with the exact arguments it received), the accumulated
  response writes, and the panic (if any) escaping the dispatch wrapper.
* Calling a nil Go function value panics at runtime; this is modelled by the
  distinguished payload `PanicVal.nilFuncCall` (relevant because `Mux.wrap`
  calls `m.errorHandler` without a nil check).
* The mux configuration is read-only once `New` returns (the package serves
  only after setup), so closures that Go captures through the `*Mux` pointer
  are modelled as capturing the mux value.
-/

namespace Ctxmux

/-- An opaque Go `error` value (handlers only pass these through verbatim). -/
inductive Err where
  | mk (n : Nat)
deriving DecidableEq, Repr

/-- An opaque panic payload (`interface\x7b\x7d`), plus the runtime error raised by
calling a nil function value. -/
inductive PanicVal where
  | nilFuncCall
  | user (n : Nat)
deriving DecidableEq, Repr

/-- Outcome of running a Go function: a normal result or a panic. -/
inductive PanicOr (α : Type) where
  | ok (a : α)
  | panicked (v : PanicVal)
deriving DecidableEq, Repr

/-- One `httprouter.Param`: a named path segment value. -/
structure Param where
  key : String
  value : String
deriving DecidableEq, Repr

/-- `httprouter.Params` (`[]Param`); the nil slice is `[]`. -/
abbrev Params := List Param

/-- Keys usable with the context. `contextParamsKey` is the package-private
`contextParamsKeyT(0)`; caller-supplied keys are `userKey` and can never be
equal to it (the unexported-key-type invariant). -/
inductive CtxKey where
  | contextParamsKey
  | userKey (n : Nat)
deriving DecidableEq, Repr

/-- Values stored in a context. The sum mirrors Go dynamic typing: the type
assertion in `ContextParams` only succeeds on a `paramsVal`. -/
inductive CtxVal where
  | paramsVal (p : Params)
  | userVal (n : Nat)
deriving DecidableEq, Repr

/-- The chained `context.Context` values this code constructs:
`context.Background()` and `context.WithValue` derivations. -/
inductive Context where
  | background
  | withValue (parent : Context) (k : CtxKey) (v : CtxVal)
deriving DecidableEq, Repr

/-- `ctx.Value(key)`: innermost binding for `key`, delegating to the parent. -/
def Context.value : Context → CtxKey → Option CtxVal
  | .background, _ => none
  | .withValue parent k v, k2 => if k2 = k then some v else Context.value parent k2

/-- `WithParams` (ctxmux.go:26-28): attach the params under the private key. -/
def WithParams (ctx : Context) (p : Params) : Context :=
  .withValue ctx .contextParamsKey (.paramsVal p)

/-- `ContextParams` (ctxmux.go:31-34): `p, _ := ctx.Value(key).(httprouter.Params)`;
a missing binding or one of the wrong dynamic type yields the nil `Params`. -/
def ContextParams (ctx : Context) : Params :=
  match ctx.value .contextParamsKey with
  | some (.paramsVal p) => p
  | _ => []

/-- A request (opaque beyond method and path; this layer never reads more). -/
structure Request where
  method : String
  path : String
deriving DecidableEq, Repr

/-- Semantic result of running a handler body: response chunks written (up to
the panic point if it panics), and either a panic or the returned error. -/
structure HandlerResult where
  writes : List String
  outcome : PanicOr (Option Err)
deriving DecidableEq, Repr

/-- `Handler` (ctxmux.go:53): `func(ctx, w, r) error`, modelled semantically. -/
abbrev Handler := Context → Request → HandlerResult

/-- Semantic `http.Handler` / `http.HandlerFunc`: writes chunks and either
returns (no value) or panics. -/
abbrev GoHTTPHandler := Request → List String × Option PanicVal

/-- `ErrorHandler` (ctxmux.go:154): `func(ctx, w, r, err)`; may write and may
itself panic. -/
abbrev ErrorHandler := Context → Request → Err → List String × Option PanicVal

/-- `PanicHandler` (ctxmux.go:168): `func(ctx, w, r, v)`. The context argument
may be the nil context (`none`) when the panic preceded any assignment. -/
abbrev PanicHandler := Option Context → Request → PanicVal → List String × Option PanicVal

/-- The context maker: `func(*http.Request) (context.Context, error)`. -/
abbrev ContextMaker := Request → PanicOr (Context × Option Err)

/-- `HTTPHandler` (ctxmux.go:37-42): adapt an `http.Handler`; calls
`handler.ServeHTTP(w, r)` then returns nil. -/
def HTTPHandler (handler : GoHTTPHandler) : Handler := fun _ req =>
  let r := handler req
  { writes := r.1
    outcome := match r.2 with
      | none => .ok none
      | some v => .panicked v }

/-- `HTTPHandlerFunc` (ctxmux.go:44-50): adapt an `http.HandlerFunc`; calls
`handler(w, r)` then returns nil. -/
def HTTPHandlerFunc (handler : GoHTTPHandler) : Handler := fun _ req =>
  let r := handler req
  { writes := r.1
    outcome := match r.2 with
      | none => .ok none
      | some v => .panicked v }

/-- One collaborator invocation during dispatch, with the exact arguments
delivered to it. -/
inductive Event where
  | callHandler (ctx : Context)
  | callErrorHandler (ctx : Context) (e : Err)
  | callPanicHandler (ctx : Option Context) (v : PanicVal)
deriving DecidableEq, Repr

/-- The observable result of one dispatch through the wrapper: invocation
trace in order, response writes in order, and any panic escaping the wrapper. -/
structure DispatchResult where
  events : List Event
  writes : List String
  escaped : Option PanicVal
deriving DecidableEq, Repr

/-- The `httprouter.Router` registration surface used by this package
(external collaborator; only its registration bookkeeping is modelled, with
each verb method shorthand for `Handle(verb, ...)` exactly as in httprouter). -/
structure Router where
  table : List ((String × String) × (Request → Params → DispatchResult))
  notFound : Option (Request → DispatchResult)
  redirectTrailingSlash : Bool

/-- `Router.Handle`: bind a wrapped handle to the (method, path) key. -/
def Router.Handle (r : Router) (method path : String)
    (h : Request → Params → DispatchResult) : Router :=
  { r with table := r.table ++ [((method, path), h)] }

/-- httprouter verb shorthand. -/
def Router.HEAD (r : Router) (path : String) (h : Request → Params → DispatchResult) : Router :=
  r.Handle "HEAD" path h

/-- httprouter verb shorthand. -/
def Router.GET (r : Router) (path : String) (h : Request → Params → DispatchResult) : Router :=
  r.Handle "GET" path h

/-- httprouter verb shorthand. -/
def Router.POST (r : Router) (path : String) (h : Request → Params → DispatchResult) : Router :=
  r.Handle "POST" path h

/-- httprouter verb shorthand. -/
def Router.PUT (r : Router) (path : String) (h : Request → Params → DispatchResult) : Router :=
  r.Handle "PUT" path h

/-- httprouter verb shorthand. -/
def Router.DELETE (r : Router) (path : String) (h : Request → Params → DispatchResult) : Router :=
  r.Handle "DELETE" path h

/-- httprouter verb shorthand. -/
def Router.PATCH (r : Router) (path : String) (h : Request → Params → DispatchResult) : Router :=
  r.Handle "PATCH" path h

/-- `Mux` (ctxmux.go:56-61). A nil Go function field is `none`. -/
structure Mux where
  contextMaker : Option ContextMaker
  errorHandler : Option ErrorHandler
  panicHandler : Option PanicHandler
  r : Router

/-- `Mux.makeContext` (ctxmux.go:63-72): run the configured context maker; on
error discard its context and return `context.Background()` with the error;
default to `context.Background()` when none is configured. A panic inside the
maker propagates. -/
def Mux.makeContext (m : Mux) (req : Request) : PanicOr (Context × Option Err) :=
  match m.contextMaker with
  | some f =>
    match f req with
    | .panicked v => .panicked v
    | .ok (_, some e) => .ok (.background, some e)
    | .ok (ctx, none) => .ok (ctx, none)
  | none => .ok (.background, none)

/-- Trace, writes and pending panic of one collaborator call. -/
structure CallOut where
  events : List Event
  writes : List String
  pv : Option PanicVal
deriving DecidableEq, Repr

/-- The `m.errorHandler(ctx, w, r, err)` call sites in `Mux.wrap`: Go performs
the call without a nil check, so an unconfigured error handler is a nil
function call, which panics. -/
def Mux.callError (m : Mux) (ctx : Context) (req : Request) (e : Err) : CallOut :=
  match m.errorHandler with
  | none => ⟨[], [], some .nilFuncCall⟩
  | some eh =>
    let r := eh ctx req e
    ⟨[.callErrorHandler ctx e], r.1, r.2⟩

/-- State observed by the deferred recovery closure plus the body's effects. -/
structure BodyOut where
  ctxVar : Option Context
  events : List Event
  writes : List String
  pv : Option PanicVal

/-- Lines 86-96 of `Mux.wrap`: make the context (the `ctx` variable stays nil
if the maker panics), route a maker error to the error handler with the
background context and stop, otherwise merge params, run the handler, and
route a returned error to the error handler with the final context.
`ctxVar` is the value of the `ctx` variable at the point the body ended. -/
def Mux.wrapBody (m : Mux) (handler : Handler) (req : Request) (p : Params) : BodyOut :=
  match m.makeContext req with
  | .panicked v => ⟨none, [], [], some v⟩
  | .ok (c, some e) =>
    let r := m.callError c req e
    ⟨some c, r.events, r.writes, r.pv⟩
  | .ok (c, none) =>
    let ctx := WithParams c p
    let hres := handler ctx req
    match hres.outcome with
    | .panicked v => ⟨some ctx, [.callHandler ctx], hres.writes, some v⟩
    | .ok none => ⟨some ctx, [.callHandler ctx], hres.writes, none⟩
    | .ok (some e) =>
      let r := m.callError ctx req e
      ⟨some ctx, .callHandler ctx :: r.events, hres.writes ++ r.writes, r.pv⟩

/-- `Mux.wrap` (ctxmux.go:74-98): the dispatch wrapper. When a panic handler
is configured, a deferred `recover` covers the whole body and hands the panic
payload, together with the current value of the `ctx` variable, to the panic
handler; otherwise any panic escapes the wrapper. -/
def Mux.wrap (m : Mux) (handler : Handler) : Request → Params → DispatchResult :=
  fun req p =>
    let b := m.wrapBody handler req p
    match b.pv with
    | none => ⟨b.events, b.writes, none⟩
    | some v =>
      match m.panicHandler with
      | none => ⟨b.events, b.writes, some v⟩
      | some ph =>
        let r := ph b.ctxVar req v
        ⟨b.events ++ [.callPanicHandler b.ctxVar v], b.writes ++ r.1, r.2⟩

/-- Alias for the handler type, needed inside the `Mux` namespace where the
bare name `Handler` would resolve to the registration method `Mux.Handler`. -/
abbrev HandlerFn := Handler

/-- `Mux.Handler` (ctxmux.go:101-103): register by method and path. -/
def Mux.Handler (m : Mux) (method path : String) (handler : HandlerFn) : Mux :=
  { m with r := m.r.Handle method path (m.wrap handler) }

/-- `Mux.HEAD` (ctxmux.go:106-108). -/
def Mux.HEAD (m : Mux) (path : String) (handler : HandlerFn) : Mux :=
  { m with r := m.r.HEAD path (m.wrap handler) }

/-- `Mux.GET` (ctxmux.go:111-113). -/
def Mux.GET (m : Mux) (path : String) (handler : HandlerFn) : Mux :=
  { m with r := m.r.GET path (m.wrap handler) }

/-- `Mux.POST` (ctxmux.go:116-118). -/
def Mux.POST (m : Mux) (path : String) (handler : HandlerFn) : Mux :=
  { m with r := m.r.POST path (m.wrap handler) }

/-- `Mux.PUT` (ctxmux.go:121-123). -/
def Mux.PUT (m : Mux) (path : String) (handler : HandlerFn) : Mux :=
  { m with r := m.r.PUT path (m.wrap handler) }

/-- `Mux.DELETE` (ctxmux.go:126-128). -/
def Mux.DELETE (m : Mux) (path : String) (handler : HandlerFn) : Mux :=
  { m with r := m.r.DELETE path (m.wrap handler) }

/-- `Mux.PATCH` (ctxmux.go:131-133). -/
def Mux.PATCH (m : Mux) (path : String) (handler : HandlerFn) : Mux :=
  { m with r := m.r.PATCH path (m.wrap handler) }

/-- `MuxOption` (ctxmux.go:141): may update the mux and may return an error. -/
abbrev MuxOption := Mux → Mux × Option Err

/-- `MuxContextMaker` (ctxmux.go:146-151). -/
def MuxContextMaker (f : ContextMaker) : MuxOption := fun m =>
  ({ m with contextMaker := some f }, none)

/-- `MuxErrorHandler` (ctxmux.go:159-164). -/
def MuxErrorHandler (handler : ErrorHandler) : MuxOption := fun m =>
  ({ m with errorHandler := some handler }, none)

/-- `MuxPanicHandler` (ctxmux.go:173-178). -/
def MuxPanicHandler (handler : PanicHandler) : MuxOption := fun m =>
  ({ m with panicHandler := some handler }, none)

/-- `MuxNotFoundHandler` (ctxmux.go:182-190): wrap the handler through the
same dispatch wrapper and register it as the router's NotFound callback,
invoked with nil params. -/
def MuxNotFoundHandler (handler : Handler) : MuxOption := fun m =>
  ({ m with r := { m.r with notFound := some (fun req => m.wrap handler req []) } }, none)

/-- `MuxRedirectTrailingSlash` (ctxmux.go:194-197). -/
def MuxRedirectTrailingSlash : MuxOption := fun m =>
  ({ m with r := { m.r with redirectTrailingSlash := true } }, none)

/-- The zero value `var m Mux` that `New` starts from. -/
def zeroMux : Mux :=
  { contextMaker := none
    errorHandler := none
    panicHandler := none
    r := { table := [], notFound := none, redirectTrailingSlash := false } }

/-- The option loop of `New` (ctxmux.go:202-206): apply options left to right,
stopping at the first error. -/
def applyOptions : Mux → List MuxOption → Except Err Mux
  | m, [] => .ok m
  | m, o :: rest =>
    match o m with
    | (m2, none) => applyOptions m2 rest
    | (_, some e) => .error e

/-- `New` (ctxmux.go:200-208): configure a fresh zero-valued mux, returning
the first option error if any. -/
def New (options : List MuxOption) : Except Err Mux :=
  applyOptions zeroMux options

/-! ### Helper lemmas characterizing the dispatch wrapper -/

theorem makeContext_maker_err (m : Mux) (cm : ContextMaker) (req : Request)
    (c0 : Context) (e : Err) (hcm : m.contextMaker = some cm)
    (hres : cm req = .ok (c0, some e)) :
    m.makeContext req = .ok (.background, some e) := by
  simp [Mux.makeContext, hcm, hres]

theorem makeContext_maker_panic (m : Mux) (cm : ContextMaker) (req : Request)
    (v : PanicVal) (hcm : m.contextMaker = some cm) (hres : cm req = .panicked v) :
    m.makeContext req = .panicked v := by
  simp [Mux.makeContext, hcm, hres]

theorem callError_some (m : Mux) (eh : ErrorHandler) (ctx : Context) (req : Request)
    (e : Err) (heh : m.errorHandler = some eh) :
    m.callError ctx req e = ⟨[.callErrorHandler ctx e], (eh ctx req e).1, (eh ctx req e).2⟩ := by
  simp [Mux.callError, heh]

theorem callError_none (m : Mux) (ctx : Context) (req : Request) (e : Err)
    (heh : m.errorHandler = none) :
    m.callError ctx req e = ⟨[], [], some .nilFuncCall⟩ := by
  simp [Mux.callError, heh]

theorem wrapBody_maker_panic (m : Mux) (h : Handler) (req : Request) (p : Params)
    (v : PanicVal) (hmk : m.makeContext req = .panicked v) :
    m.wrapBody h req p = ⟨none, [], [], some v⟩ := by
  simp [Mux.wrapBody, hmk]

theorem wrapBody_maker_err (m : Mux) (h : Handler) (req : Request) (p : Params)
    (c : Context) (e : Err) (hmk : m.makeContext req = .ok (c, some e)) :
    m.wrapBody h req p =
      ⟨some c, (m.callError c req e).events, (m.callError c req e).writes,
        (m.callError c req e).pv⟩ := by
  simp [Mux.wrapBody, hmk]

theorem wrapBody_handler_panic (m : Mux) (h : Handler) (req : Request) (p : Params)
    (c : Context) (v : PanicVal) (hmk : m.makeContext req = .ok (c, none))
    (hout : (h (WithParams c p) req).outcome = .panicked v) :
    m.wrapBody h req p =
      ⟨some (WithParams c p), [.callHandler (WithParams c p)],
        (h (WithParams c p) req).writes, some v⟩ := by
  simp [Mux.wrapBody, hmk, hout]

theorem wrapBody_handler_ok (m : Mux) (h : Handler) (req : Request) (p : Params)
    (c : Context) (hmk : m.makeContext req = .ok (c, none))
    (hout : (h (WithParams c p) req).outcome = .ok none) :
    m.wrapBody h req p =
      ⟨some (WithParams c p), [.callHandler (WithParams c p)],
        (h (WithParams c p) req).writes, none⟩ := by
  simp [Mux.wrapBody, hmk, hout]

theorem wrapBody_handler_err (m : Mux) (h : Handler) (req : Request) (p : Params)
    (c : Context) (e : Err) (hmk : m.makeContext req = .ok (c, none))
    (hout : (h (WithParams c p) req).outcome = .ok (some e)) :
    m.wrapBody h req p =
      ⟨some (WithParams c p),
        .callHandler (WithParams c p) :: (m.callError (WithParams c p) req e).events,
        (h (WithParams c p) req).writes ++ (m.callError (WithParams c p) req e).writes,
        (m.callError (WithParams c p) req e).pv⟩ := by
  simp [Mux.wrapBody, hmk, hout]

theorem wrap_of_pv_none (m : Mux) (h : Handler) (req : Request) (p : Params)
    (hpv : (m.wrapBody h req p).pv = none) :
    m.wrap h req p = ⟨(m.wrapBody h req p).events, (m.wrapBody h req p).writes, none⟩ := by
  simp [Mux.wrap, hpv]

theorem wrap_of_no_panic_handler (m : Mux) (h : Handler) (req : Request) (p : Params)
    (v : PanicVal) (hpv : (m.wrapBody h req p).pv = some v) (hph : m.panicHandler = none) :
    m.wrap h req p = ⟨(m.wrapBody h req p).events, (m.wrapBody h req p).writes, some v⟩ := by
  simp [Mux.wrap, hpv, hph]

theorem wrap_of_panic_handler (m : Mux) (ph : PanicHandler) (h : Handler) (req : Request)
    (p : Params) (v : PanicVal) (hpv : (m.wrapBody h req p).pv = some v)
    (hph : m.panicHandler = some ph) :
    m.wrap h req p =
      ⟨(m.wrapBody h req p).events ++ [.callPanicHandler (m.wrapBody h req p).ctxVar v],
        (m.wrapBody h req p).writes ++ (ph (m.wrapBody h req p).ctxVar req v).1,
        (ph (m.wrapBody h req p).ctxVar req v).2⟩ := by
  simp [Mux.wrap, hpv, hph]

/-! ### Concrete fixtures used by the witness theorems -/

/-- A sample request. -/
def reqW : Request := ⟨"GET", "/"⟩

/-- A sample error value. -/
def errW : Err := .mk 7

/-- A sample panic payload. -/
def panicW : PanicVal := .user 42

/-- A context maker that fails with `errW`. -/
def cmErrW : ContextMaker := fun _ => .ok (.background, some errW)

/-- A context maker that panics with `panicW`. -/
def cmPanicW : ContextMaker := fun _ => .panicked panicW

/-- An error handler that records a write and returns normally. -/
def ehW : ErrorHandler := fun _ _ _ => (["eh"], none)

/-- An error handler that writes then itself panics with `panicW`. -/
def ehPanicW : ErrorHandler := fun _ _ _ => (["eh"], some panicW)

/-- A panic handler that records a write and returns normally. -/
def phW : PanicHandler := fun _ _ _ => (["ph"], none)

/-- A handler that writes and returns nil. -/
def hW : Handler := fun _ _ => ⟨["h"], .ok none⟩

/-- A handler that writes then returns the error `errW`. -/
def hErrW : Handler := fun _ _ => ⟨["h"], .ok (some errW)⟩

/-- A handler that writes then panics with `panicW`. -/
def hPanicW : Handler := fun _ _ => ⟨["h"], .panicked panicW⟩

/-- An `http.Handler` that writes and returns. -/
def goHW : GoHTTPHandler := fun _ => (["plain"], none)

/-- An option that fails with `errW` without touching the mux. -/
def optErrW : MuxOption := fun m => (m, some errW)

/-- The mux after `MuxRedirectTrailingSlash` is applied to the zero mux. -/
def muxRTS : Mux := { zeroMux with r := { zeroMux.r with redirectTrailingSlash := true } }

/-! ### The claims -/

/-- Claim C1: if the configured context maker returns an error, the registered
handler is never invoked, path parameters are not merged, and the error
handler is invoked (first, before anything else) with exactly that error and
the empty base context `context.Background()`. -/
theorem c1_context_maker_error_skips_handler (m : Mux) (cm : ContextMaker)
    (eh : ErrorHandler) (h : Handler) (req : Request) (p : Params) (c0 : Context)
    (e : Err) (hcm : m.contextMaker = some cm) (hres : cm req = .ok (c0, some e))
    (heh : m.errorHandler = some eh) :
    (m.wrap h req p).events.head? = some (.callErrorHandler .background e) ∧
    ∀ c, Event.callHandler c ∉ (m.wrap h req p).events := by
  have hmk := makeContext_maker_err m cm req c0 e hcm hres
  have hb := wrapBody_maker_err m h req p .background e hmk
  rw [callError_some m eh .background req e heh] at hb
  rcases hpv : (eh .background req e).2 with _ | v
  · have hw := wrap_of_pv_none m h req p (by rw [hb]; exact hpv)
    rw [hw, hb]
    simp
  · rcases hph : m.panicHandler with _ | ph
    · have hw := wrap_of_no_panic_handler m h req p v (by rw [hb]; exact hpv) hph
      rw [hw, hb]
      simp
    · have hw := wrap_of_panic_handler m ph h req p v (by rw [hb]; exact hpv) hph
      rw [hw, hb]
      simp

/-- The mux for the C1 witness: failing context maker plus error handler. -/
def muxC1 : Mux := { zeroMux with contextMaker := some cmErrW, errorHandler := some ehW }

/-- Witness for C1 at a concrete mux, handler and request. -/
theorem c1_witness :
    (muxC1.wrap hW reqW []).events.head? = some (.callErrorHandler .background errW) ∧
    ∀ c, Event.callHandler c ∉ (muxC1.wrap hW reqW []).events :=
  c1_context_maker_error_skips_handler muxC1 cmErrW ehW hW reqW [] .background errW
    rfl rfl rfl

/-- Claim C2: with a panic handler configured, a panic during context creation
or handler execution is intercepted and the panic handler receives the raw
payload and the context variable at the moment of interception (nil for a
maker panic, the merged context for a handler panic); the dispatch result is
then entirely determined by the panic handler. Without a panic handler the
panic escapes the dispatch wrapper. -/
theorem c2_panic_interception_and_propagation (m : Mux) (ph : PanicHandler)
    (cm : ContextMaker) (h : Handler) (req : Request) (p : Params) (c : Context)
    (v : PanicVal) :
    (m.panicHandler = some ph → m.contextMaker = some cm → cm req = .panicked v →
      m.wrap h req p =
        ⟨[.callPanicHandler none v], (ph none req v).1, (ph none req v).2⟩) ∧
    (m.panicHandler = some ph → m.makeContext req = .ok (c, none) →
      (h (WithParams c p) req).outcome = .panicked v →
      m.wrap h req p =
        ⟨[.callHandler (WithParams c p), .callPanicHandler (some (WithParams c p)) v],
          (h (WithParams c p) req).writes ++ (ph (some (WithParams c p)) req v).1,
          (ph (some (WithParams c p)) req v).2⟩) ∧
    (m.panicHandler = none →
      ((m.contextMaker = some cm ∧ cm req = .panicked v) ∨
        (m.makeContext req = .ok (c, none) ∧
          (h (WithParams c p) req).outcome = .panicked v)) →
      (m.wrap h req p).escaped = some v) := by
  refine ⟨fun hph hcm hres => ?_, fun hph hmk hout => ?_, fun hph hd => ?_⟩
  · have hmk := makeContext_maker_panic m cm req v hcm hres
    have hb := wrapBody_maker_panic m h req p v hmk
    have hw := wrap_of_panic_handler m ph h req p v (by rw [hb]) hph
    rw [hw, hb]
    rfl
  · have hb := wrapBody_handler_panic m h req p c v hmk hout
    have hw := wrap_of_panic_handler m ph h req p v (by rw [hb]) hph
    rw [hw, hb]
    rfl
  · rcases hd with ⟨hcm, hres⟩ | ⟨hmk, hout⟩
    · have hmk := makeContext_maker_panic m cm req v hcm hres
      have hb := wrapBody_maker_panic m h req p v hmk
      have hw := wrap_of_no_panic_handler m h req p v (by rw [hb]) hph
      rw [hw]
    · have hb := wrapBody_handler_panic m h req p c v hmk hout
      have hw := wrap_of_no_panic_handler m h req p v (by rw [hb]) hph
      rw [hw]

/-- Mux for the C2 witness, maker-panic case. -/
def muxC2a : Mux := { zeroMux with contextMaker := some cmPanicW, panicHandler := some phW }

/-- Mux for the C2 witness, handler-panic case. -/
def muxC2b : Mux := { zeroMux with panicHandler := some phW }

/-- Mux for the C2 witness, no-panic-handler case. -/
def muxC2c : Mux := { zeroMux with contextMaker := some cmPanicW }

/-- Witness for C2 covering the three scenarios at concrete muxes. -/
theorem c2_witness :
    muxC2a.wrap hW reqW [] = ⟨[.callPanicHandler none panicW], ["ph"], none⟩ ∧
    muxC2b.wrap hPanicW reqW [] =
      ⟨[.callHandler (WithParams .background []),
        .callPanicHandler (some (WithParams .background [])) panicW], ["h", "ph"], none⟩ ∧
    (muxC2c.wrap hW reqW []).escaped = some panicW :=
  ⟨(c2_panic_interception_and_propagation muxC2a phW cmPanicW hW reqW [] .background
      panicW).1 rfl rfl rfl,
   (c2_panic_interception_and_propagation muxC2b phW cmPanicW hPanicW reqW [] .background
      panicW).2.1 rfl rfl rfl,
   (c2_panic_interception_and_propagation muxC2c phW cmPanicW hW reqW [] .background
      panicW).2.2 rfl (Or.inl ⟨rfl, rfl⟩)⟩

/-- Claim C3 (code bug, evaluated at the failing input): the zero mux has no
error handler and `Mux.wrap` calls `m.errorHandler` without a nil check, so a
handler-returned error makes dispatch panic with a nil-function-call runtime
error: the error handler is never invoked and no "internal server error"
response is written, contradicting the documented default. -/
theorem c3_no_default_error_handler :
    (zeroMux.wrap hErrW reqW []).escaped = some .nilFuncCall ∧
    (zeroMux.wrap hErrW reqW []).writes = ["h"] ∧
    ∀ c e, Event.callErrorHandler c e ∉ (zeroMux.wrap hErrW reqW []).events := by
  refine ⟨rfl, rfl, ?_⟩
  intro c e
  simp [Mux.wrap, Mux.wrapBody, Mux.makeContext, Mux.callError, zeroMux, hErrW]

/-- Claim C4: when context creation succeeds and the handler returns a non-nil
error, the handler runs first (its writes remain, ahead of everything else)
and then the error handler receives exactly that error and the final
params-merged context; if the error handler returns normally the dispatch
result is exactly handler call then error-handler call. -/
theorem c4_handler_error_reaches_error_handler (m : Mux) (eh : ErrorHandler)
    (h : Handler) (req : Request) (p : Params) (c : Context) (e : Err)
    (heh : m.errorHandler = some eh) (hmk : m.makeContext req = .ok (c, none))
    (hout : (h (WithParams c p) req).outcome = .ok (some e)) :
    (∃ evtail, (m.wrap h req p).events =
      [.callHandler (WithParams c p), .callErrorHandler (WithParams c p) e] ++ evtail) ∧
    (∃ wtail, (m.wrap h req p).writes =
      (h (WithParams c p) req).writes ++ (eh (WithParams c p) req e).1 ++ wtail) ∧
    ((eh (WithParams c p) req e).2 = none →
      m.wrap h req p =
        ⟨[.callHandler (WithParams c p), .callErrorHandler (WithParams c p) e],
          (h (WithParams c p) req).writes ++ (eh (WithParams c p) req e).1, none⟩) := by
  have hb := wrapBody_handler_err m h req p c e hmk hout
  rw [callError_some m eh (WithParams c p) req e heh] at hb
  rcases hpv : (eh (WithParams c p) req e).2 with _ | v
  · have hw := wrap_of_pv_none m h req p (by rw [hb]; exact hpv)
    rw [hw, hb]
    exact ⟨⟨[], by simp⟩, ⟨[], by simp⟩, fun _ => rfl⟩
  · rcases hph : m.panicHandler with _ | ph
    · have hw := wrap_of_no_panic_handler m h req p v (by rw [hb]; exact hpv) hph
      rw [hw, hb]
      refine ⟨⟨[], by simp⟩, ⟨[], by simp⟩, fun habs => ?_⟩
      exact Option.noConfusion habs
    · have hw := wrap_of_panic_handler m ph h req p v (by rw [hb]; exact hpv) hph
      rw [hw, hb]
      refine ⟨⟨[.callPanicHandler (some (WithParams c p)) v], by simp⟩,
        ⟨(ph (some (WithParams c p)) req v).1, by simp⟩, fun habs => ?_⟩
      exact Option.noConfusion habs

/-- Mux for the C4 witness. -/
def muxC4 : Mux := { zeroMux with errorHandler := some ehW }

/-- Witness for C4: handler writes, then returns an error; the error handler
receives it with the merged context and writes after the handler. -/
theorem c4_witness :
    muxC4.wrap hErrW reqW [] =
      ⟨[.callHandler (WithParams .background []),
        .callErrorHandler (WithParams .background []) errW], ["h", "eh"], none⟩ :=
  (c4_handler_error_reaches_error_handler muxC4 ehW hErrW reqW [] .background errW
    rfl rfl rfl).2.2 rfl

/-- Claim C5: `MuxNotFoundHandler` registers, as the router's not-found
callback, the very same dispatch wrapper used for matched routes, applied with
the nil (empty) parameter set, and leaves the dispatch configuration intact. -/
theorem c5_not_found_uses_same_wrapper (m : Mux) (handler : Handler) :
    (MuxNotFoundHandler handler m).1.r.notFound =
      some (fun req => m.wrap handler req []) ∧
    (MuxNotFoundHandler handler m).2 = none ∧
    (MuxNotFoundHandler handler m).1.contextMaker = m.contextMaker ∧
    (MuxNotFoundHandler handler m).1.errorHandler = m.errorHandler ∧
    (MuxNotFoundHandler handler m).1.panicHandler = m.panicHandler ∧
    (MuxNotFoundHandler handler m).1.r.table = m.r.table :=
  ⟨rfl, rfl, rfl, rfl, rfl, rfl⟩

/-- Claim C6: each verb-specific registration method produces exactly the
registration made by the generic `Mux.Handler` with that method string. -/
theorem c6_verb_registration_is_generic (m : Mux) (path : String) (h : Handler) :
    m.HEAD path h = m.Handler "HEAD" path h ∧
    m.GET path h = m.Handler "GET" path h ∧
    m.POST path h = m.Handler "POST" path h ∧
    m.PUT path h = m.Handler "PUT" path h ∧
    m.DELETE path h = m.Handler "DELETE" path h ∧
    m.PATCH path h = m.Handler "PATCH" path h :=
  ⟨rfl, rfl, rfl, rfl, rfl, rfl⟩

/-- Claim C7: `ContextParams` recovers exactly the params attached by
`WithParams`, and on any context with no binding for the private params key
(in particular `context.Background()`) it returns the empty params value
rather than failing. -/
theorem c7_params_roundtrip_and_default :
    (∀ (ctx : Context) (p : Params), ContextParams (WithParams ctx p) = p) ∧
    (∀ ctx : Context, ctx.value .contextParamsKey = none → ContextParams ctx = []) ∧
    ContextParams .background = [] := by
  refine ⟨fun ctx p => ?_, fun ctx hv => ?_, rfl⟩
  · simp [ContextParams, WithParams, Context.value]
  · simp [ContextParams, hv]

/-- Witness for C7 on a context holding only an unrelated user binding. -/
theorem c7_witness :
    ContextParams (Context.withValue .background (.userKey 0) (.userVal 1)) = [] :=
  c7_params_roundtrip_and_default.2.1
    (Context.withValue .background (.userKey 0) (.userVal 1)) (by decide)

/-- Splitting lemma for the option loop of `New`. -/
theorem applyOptions_append (l1 l2 : List MuxOption) (m : Mux) :
    applyOptions m (l1 ++ l2) =
      match applyOptions m l1 with
      | .ok m2 => applyOptions m2 l2
      | .error e => .error e := by
  induction l1 generalizing m with
  | nil => rfl
  | cons o rest ih =>
    rcases ho : o m with ⟨m2, _ | e⟩
    · simp [applyOptions, ho, ih]
    · simp [applyOptions, ho]

/-- Claim C8: `New` starts from the zero-valued mux and applies the options
strictly left to right; a successful option hands its updated mux to the next
one, and the first failing option makes `New` return that error with none of
the remaining options applied (the result does not depend on them). -/
theorem c8_new_applies_options_in_order :
    (New [] = .ok zeroMux) ∧
    (∀ (opts1 : List MuxOption) (o : MuxOption) (opts2 : List MuxOption) (m1 m2 : Mux),
      applyOptions zeroMux opts1 = .ok m1 → o m1 = (m2, none) →
      New (opts1 ++ o :: opts2) = applyOptions m2 opts2) ∧
    (∀ (opts1 : List MuxOption) (o : MuxOption) (opts2 : List MuxOption) (m1 m2 : Mux)
      (e : Err),
      applyOptions zeroMux opts1 = .ok m1 → o m1 = (m2, some e) →
      New (opts1 ++ o :: opts2) = .error e) := by
  refine ⟨rfl, ?_, ?_⟩
  · intro opts1 o opts2 m1 m2 h1 h2
    unfold New
    rw [applyOptions_append, h1]
    simp [applyOptions, h2]
  · intro opts1 o opts2 m1 m2 e h1 h2
    unfold New
    rw [applyOptions_append, h1]
    simp [applyOptions, h2]

/-- Witness for C8: the first failing option aborts configuration. -/
theorem c8_witness :
    New [MuxRedirectTrailingSlash, optErrW, MuxRedirectTrailingSlash] = .error errW :=
  c8_new_applies_options_in_order.2.2 [MuxRedirectTrailingSlash] optErrW
    [MuxRedirectTrailingSlash] muxRTS muxRTS errW rfl rfl

/-- Claim C9: the `HTTPHandler` and `HTTPHandlerFunc` adapters ignore the
context, hand the request straight to the underlying plain handler (whose
writes they reproduce), and return the nil error whenever the underlying
handler returns; consequently, with a successful context setup, a plain
handler mounted through them can never cause the error handler to be
invoked. -/
theorem c9_http_adapters_return_nil (hh : GoHTTPHandler) (ctx ctx2 : Context)
    (req : Request) :
    HTTPHandler hh ctx req = HTTPHandler hh ctx2 req ∧
    (HTTPHandler hh ctx req).writes = (hh req).1 ∧
    ((hh req).2 = none → (HTTPHandler hh ctx req).outcome = .ok none) ∧
    HTTPHandlerFunc hh ctx req = HTTPHandler hh ctx req ∧
    (∀ (m : Mux) (p : Params) (c c2 : Context) (e : Err),
      m.makeContext req = .ok (c, none) →
      Event.callErrorHandler c2 e ∉ (m.wrap (HTTPHandler hh) req p).events) ∧
    (∀ (m : Mux) (p : Params) (c c2 : Context) (e : Err),
      m.makeContext req = .ok (c, none) →
      Event.callErrorHandler c2 e ∉ (m.wrap (HTTPHandlerFunc hh) req p).events) := by
  have hadapt : ∀ (c3 : Context), HTTPHandler hh c3 req = HTTPHandlerFunc hh c3 req :=
    fun _ => rfl
  have hnoerr : ∀ (m : Mux) (p : Params) (c c2 : Context) (e : Err),
      m.makeContext req = .ok (c, none) →
      Event.callErrorHandler c2 e ∉ (m.wrap (HTTPHandler hh) req p).events := by
    intro m p c c2 e hmk
    rcases hp : (hh req).2 with _ | v
    · have hout : (HTTPHandler hh (WithParams c p) req).outcome = .ok none := by
        simp [HTTPHandler, hp]
      have hb := wrapBody_handler_ok m (HTTPHandler hh) req p c hmk hout
      have hw := wrap_of_pv_none m (HTTPHandler hh) req p (by rw [hb])
      rw [hw, hb]
      simp
    · have hout : (HTTPHandler hh (WithParams c p) req).outcome = .panicked v := by
        simp [HTTPHandler, hp]
      have hb := wrapBody_handler_panic m (HTTPHandler hh) req p c v hmk hout
      rcases hph : m.panicHandler with _ | ph
      · have hw := wrap_of_no_panic_handler m (HTTPHandler hh) req p v (by rw [hb]) hph
        rw [hw, hb]
        simp
      · have hw := wrap_of_panic_handler m ph (HTTPHandler hh) req p v (by rw [hb]) hph
        rw [hw, hb]
        simp
  refine ⟨rfl, rfl, fun hp => ?_, (hadapt ctx).symm, hnoerr, ?_⟩
  · simp [HTTPHandler, hp]
  · intro m p c c2 e hmk
    have hfn : m.wrap (HTTPHandlerFunc hh) req p = m.wrap (HTTPHandler hh) req p := rfl
    rw [hfn]
    exact hnoerr m p c c2 e hmk

/-- Witness for C9: a plain handler dispatched through the zero mux triggers
no error handler call and its adapter returns the nil error. -/
theorem c9_witness :
    Event.callErrorHandler .background errW ∉
      (zeroMux.wrap (HTTPHandler goHW) reqW []).events ∧
    (HTTPHandler goHW .background reqW).outcome = .ok none :=
  ⟨(c9_http_adapters_return_nil goHW .background .background reqW).2.2.2.2.1
      zeroMux [] .background .background errW rfl,
   (c9_http_adapters_return_nil goHW .background .background reqW).2.2.1 rfl⟩

/-- Claim C10: the recovery boundary is installed before context construction
and covers the whole dispatch body: with a panic handler configured, a panic
inside the context maker is intercepted and delivered with the nil
(not-yet-assigned) context, and a panic inside the error handler itself —
whether reached from a context-maker error or from a handler error — is
intercepted and delivered with the context variable current at that point. -/
theorem c10_recovery_covers_maker_and_error_handler (m : Mux) (ph : PanicHandler)
    (cm : ContextMaker) (eh : ErrorHandler) (h : Handler) (req : Request) (p : Params)
    (c0 c : Context) (e : Err) (v : PanicVal) :
    (m.panicHandler = some ph → m.contextMaker = some cm → cm req = .panicked v →
      (m.wrap h req p).events = [.callPanicHandler none v] ∧
      (m.wrap h req p).escaped = (ph none req v).2) ∧
    (m.panicHandler = some ph → m.contextMaker = some cm → cm req = .ok (c0, some e) →
      m.errorHandler = some eh → (eh .background req e).2 = some v →
      m.wrap h req p =
        ⟨[.callErrorHandler .background e, .callPanicHandler (some .background) v],
          (eh .background req e).1 ++ (ph (some .background) req v).1,
          (ph (some .background) req v).2⟩) ∧
    (m.panicHandler = some ph → m.makeContext req = .ok (c, none) →
      (h (WithParams c p) req).outcome = .ok (some e) →
      m.errorHandler = some eh → (eh (WithParams c p) req e).2 = some v →
      m.wrap h req p =
        ⟨[.callHandler (WithParams c p), .callErrorHandler (WithParams c p) e,
            .callPanicHandler (some (WithParams c p)) v],
          (h (WithParams c p) req).writes ++ (eh (WithParams c p) req e).1 ++
            (ph (some (WithParams c p)) req v).1,
          (ph (some (WithParams c p)) req v).2⟩) := by
  refine ⟨fun hph hcm hres => ?_, fun hph hcm hres heh hehp => ?_,
    fun hph hmk hout heh hehp => ?_⟩
  · have hmk := makeContext_maker_panic m cm req v hcm hres
    have hb := wrapBody_maker_panic m h req p v hmk
    have hw := wrap_of_panic_handler m ph h req p v (by rw [hb]) hph
    rw [hw, hb]
    exact ⟨rfl, rfl⟩
  · have hmk := makeContext_maker_err m cm req c0 e hcm hres
    have hb := wrapBody_maker_err m h req p .background e hmk
    rw [callError_some m eh .background req e heh] at hb
    have hw := wrap_of_panic_handler m ph h req p v (by rw [hb]; exact hehp) hph
    rw [hw, hb]
    simp
  · have hb := wrapBody_handler_err m h req p c e hmk hout
    rw [callError_some m eh (WithParams c p) req e heh] at hb
    have hw := wrap_of_panic_handler m ph h req p v (by rw [hb]; exact hehp) hph
    rw [hw, hb]
    simp

/-- Mux for the C10 witness, maker-error-then-error-handler-panic case. -/
def muxC10b : Mux :=
  { zeroMux with
    contextMaker := some cmErrW
    errorHandler := some ehPanicW
    panicHandler := some phW }

/-- Mux for the C10 witness, handler-error-then-error-handler-panic case. -/
def muxC10c : Mux :=
  { zeroMux with errorHandler := some ehPanicW, panicHandler := some phW }

/-- Witness for C10 covering the three interception scenarios. -/
theorem c10_witness :
    ((muxC2a.wrap hW reqW []).events = [.callPanicHandler none panicW] ∧
      (muxC2a.wrap hW reqW []).escaped = none) ∧
    muxC10b.wrap hW reqW [] =
      ⟨[.callErrorHandler .background errW, .callPanicHandler (some .background) panicW],
        ["eh", "ph"], none⟩ ∧
    muxC10c.wrap hErrW reqW [] =
      ⟨[.callHandler (WithParams .background []),
          .callErrorHandler (WithParams .background []) errW,
          .callPanicHandler (some (WithParams .background [])) panicW],
        ["h", "eh", "ph"], none⟩ :=
  ⟨(c10_recovery_covers_maker_and_error_handler muxC2a phW cmPanicW ehW hW reqW []
      .background .background errW panicW).1 rfl rfl rfl,
   (c10_recovery_covers_maker_and_error_handler muxC10b phW cmErrW ehPanicW hW reqW []
      .background .background errW panicW).2.1 rfl rfl rfl rfl rfl,
   (c10_recovery_covers_maker_and_error_handler muxC10c phW cmErrW ehPanicW hErrW reqW []
      .background .background errW panicW).2.2 rfl rfl rfl rfl rfl⟩

end Ctxmux
